import Mathlib

/-!
Shallow embedding of the EstateSearchAI vector-store subsystem.

Sources embedded:
- src/models/property.py       (Property, to_embedding_text)
- src/vectorstore/base.py      (PropertyVectorStore.__init__, _create_documents)
- src/vectorstore/faiss_store.py  (FAISSPropertyStore)
- src/vectorstore/chroma_store.py (ChromaPropertyStore)

Modelling conventions:
- Python floats are embedded as ℚ; Python's `str(float)` rendering is passed
  around as an explicit parameter `fr : ℚ → String`, and `float(str)` parsing
  as a parameter where the code parses.  Theorems that need the rendering and
  parsing to agree state that agreement as an explicit hypothesis.
- The filesystem is a list of existing paths (files and directories), each
  path being a list of name components.
- Calls into the backend libraries (langchain FAISS, chromadb) are embedded
  by modelling the library behaviour the code relies on; each such definition
  carries a doc comment naming the library operation it models.
-/

/-- Filesystem paths, modelled as lists of name components. -/
abbrev FsPath := List String

/-- `underDir d p` holds when path `p` is the directory `d` itself or lies
beneath it (the scope of `shutil.rmtree d`). -/
def underDir : FsPath → FsPath → Bool
  | [], _ => true
  | _ :: _, [] => false
  | d :: ds, c :: cs => decide (d = c) && underDir ds cs

/-- The set of existing filesystem entries, as a list of paths. -/
abbrev Fs := List FsPath

/-- os.path.exists -/
def pathExists (fs : Fs) (p : FsPath) : Bool := decide (p ∈ fs)

/-- os.makedirs (exist_ok=True): ensure the directory entry exists. -/
def Fs.makedirs (fs : Fs) (p : FsPath) : Fs := p :: fs

/-- shutil.rmtree: remove a directory and everything beneath it. -/
def Fs.rmtree (fs : Fs) (d : FsPath) : Fs := fs.filter (fun p => ! underDir d p)

/-- The Property model (src/models/property.py).  Python floats are embedded
as ℚ, `Optional[T]` as `Option T`, `Dict[str, str]` as an association list. -/
structure Property where
  id : String
  date : String
  ref : String
  price : ℚ
  currency : String
  price_freq : String
  new_build : Bool := false
  type : String
  town : String
  province : Option String
  country : String
  beds : Option Int
  baths : Option Int
  surface_area_built : Option ℚ
  surface_area_plot : Option ℚ
  desc : List (String × String) := []
  features : List String := []
  pool : Bool := false
  property_name : String
  images : List (List (String × String)) := []
deriving DecidableEq

/-- PropertyMatch (src/models/property.py): a (property, similarity) pair. -/
structure PropertyMatch where
  property : Property
  similarity : ℚ
deriving DecidableEq

/-- Python `str()` of an `Optional[int]` interpolated into an f-string:
`None` renders as the literal string "None". -/
def pyOptIntStr : Option Int → String
  | Option.none => "None"
  | some n => toString n

/-- Property.to_embedding_text (src/models/property.py lines 33-56).
`fr` is Python's `str(float)` rendering.  Notes kept from the source:
- the location line interpolates `self.province if self.province else ''`
  (an empty string when the province is absent — the country always follows);
- a surface area contributes iff it is truthy (present and nonzero);
- `self.desc.get('es', '') if self.desc else ''`;
- the f-string's inner lines keep their 8-space indentation after `.strip()`. -/
def Property.to_embedding_text (fr : ℚ → String) (p : Property) : String :=
  let features_text := match p.features with
    | [] => "No special features"
    | fs => String.intercalate ", " fs
  let description := match p.desc with
    | [] => ""
    | d => (d.lookup "es").getD ""
  let area_parts : List String :=
    (match p.surface_area_built with
      | some q => if q ≠ 0 then [fr q ++ "m² built"] else []
      | Option.none => []) ++
    (match p.surface_area_plot with
      | some q => if q ≠ 0 then [fr q ++ "m² plot"] else []
      | Option.none => [])
  let area_text := match area_parts with
    | [] => "Area N/A"
    | parts => String.intercalate ", " parts
  "Property Name: " ++ p.property_name
    ++ "\n        Type: " ++ p.type
    ++ "\n        Location: " ++ p.town ++ ", " ++ (p.province.getD "") ++ ", " ++ p.country
    ++ "\n        Price: " ++ fr p.price ++ " " ++ p.currency ++ " (" ++ p.price_freq ++ ")"
    ++ "\n        Details: " ++ pyOptIntStr p.beds ++ " bedrooms, " ++ pyOptIntStr p.baths ++ " bathrooms"
    ++ "\n        Area: " ++ area_text
    ++ "\n        Features: " ++ features_text
    ++ "\n        Pool: " ++ (if p.pool then "Yes" else "No")
    ++ "\n        Description: " ++ description

/-- Modelled from the claim's words (C9): the location uses a
province-or-country fallback (when the province is absent the country takes
its place), and a surface area is included iff it is present (absence meaning
`None`), "Area N/A" appearing iff both are absent.  Everything else follows
the code's layout. -/
def embeddingTextClaimed (fr : ℚ → String) (p : Property) : String :=
  let features_text := match p.features with
    | [] => "No special features"
    | fs => String.intercalate ", " fs
  let description := match p.desc with
    | [] => ""
    | d => (d.lookup "es").getD ""
  let area_parts : List String :=
    (match p.surface_area_built with
      | some q => [fr q ++ "m² built"]
      | Option.none => []) ++
    (match p.surface_area_plot with
      | some q => [fr q ++ "m² plot"]
      | Option.none => [])
  let area_text := match area_parts with
    | [] => "Area N/A"
    | parts => String.intercalate ", " parts
  "Property Name: " ++ p.property_name
    ++ "\n        Type: " ++ p.type
    ++ "\n        Location: " ++ p.town ++ ", "
        ++ (match p.province with | some s => s | Option.none => p.country)
    ++ "\n        Price: " ++ fr p.price ++ " " ++ p.currency ++ " (" ++ p.price_freq ++ ")"
    ++ "\n        Details: " ++ pyOptIntStr p.beds ++ " bedrooms, " ++ pyOptIntStr p.baths ++ " bathrooms"
    ++ "\n        Area: " ++ area_text
    ++ "\n        Features: " ++ features_text
    ++ "\n        Pool: " ++ (if p.pool then "Yes" else "No")
    ++ "\n        Description: " ++ description

/-- The amended C9 wording: the location line is town, province-or-empty,
country — the country always appears and there is no fallback — and a surface
area is included iff it is present and nonzero, "Area N/A" appearing iff both
surface areas are absent or zero.  Everything else as the claim states. -/
def embeddingTextAmended (fr : ℚ → String) (p : Property) : String :=
  let features_text := match p.features with
    | [] => "No special features"
    | fs => String.intercalate ", " fs
  let description := match p.desc with
    | [] => ""
    | d => (d.lookup "es").getD ""
  let area_parts : List String :=
    (match p.surface_area_built with
      | some q => if q ≠ 0 then [fr q ++ "m² built"] else []
      | Option.none => []) ++
    (match p.surface_area_plot with
      | some q => if q ≠ 0 then [fr q ++ "m² plot"] else []
      | Option.none => [])
  let area_text := match area_parts with
    | [] => "Area N/A"
    | parts => String.intercalate ", " parts
  "Property Name: " ++ p.property_name
    ++ "\n        Type: " ++ p.type
    ++ "\n        Location: " ++ p.town ++ ", "
        ++ (match p.province with | some s => s | Option.none => "") ++ ", " ++ p.country
    ++ "\n        Price: " ++ fr p.price ++ " " ++ p.currency ++ " (" ++ p.price_freq ++ ")"
    ++ "\n        Details: " ++ pyOptIntStr p.beds ++ " bedrooms, " ++ pyOptIntStr p.baths ++ " bathrooms"
    ++ "\n        Area: " ++ area_text
    ++ "\n        Features: " ++ features_text
    ++ "\n        Pool: " ++ (if p.pool then "Yes" else "No")
    ++ "\n        Description: " ++ description

/-- A concrete float rendering used in counterexamples and witnesses. -/
def fr0 : ℚ → String := fun q =>
  if q = 0 then "0.0"
  else if q = 120 then "120.0"
  else "140000.0"

/-- Concrete listing: no province, no surface areas. -/
def sampleA : Property :=
  { id := "1", date := "2024-01-01", ref := "R1", price := 140000,
    currency := "EUR", price_freq := "sale", new_build := false,
    type := "Apartment", town := "Guardamar", province := Option.none,
    country := "Spain", beds := some 2, baths := some 1,
    surface_area_built := Option.none, surface_area_plot := Option.none,
    desc := [("es", "Bonito piso")], features := ["Pool"], pool := true,
    property_name := "Casa Azul", images := [] }

/-- Concrete listing: province present, built surface present but zero. -/
def sampleB : Property :=
  { sampleA with province := some "Alicante", surface_area_built := some 0 }

/-- C9 counterexample: the claim's reading of to_embedding_text is wrong at
two explicit listings.  With the province absent the code emits
"Location: Guardamar, , Spain" — the country does not take the province's
place — and with a zero built surface area the code emits "Area N/A" even
though the surface area is present. -/
theorem C9_counterexample :
    Property.to_embedding_text fr0 sampleA ≠ embeddingTextClaimed fr0 sampleA ∧
    Property.to_embedding_text fr0 sampleB ≠ embeddingTextClaimed fr0 sampleB := by
  constructor <;> decide

/-- C9 (amended): to_embedding_text is a pure function of the listing that
concatenates, in fixed order, name, type, location (town, province-or-empty,
country — no fallback), price with currency and frequency, bed/bath counts,
surface areas formatted as "<n>m² built[, <n>m² plot]" where a surface
contributes iff present and nonzero ("Area N/A" iff both absent or zero),
comma-joined feature tags (or "No special features" iff the feature list is
empty), pool yes/no, and the primary-language description. -/
theorem C9_amended (fr : ℚ → String) (p : Property) :
    Property.to_embedding_text fr p = embeddingTextAmended fr p := by
  obtain ⟨i, da, re, pr, cu, pf, nb, ty, tw, prov, co, be, ba, sab, sap, de, fe, po, pn, im⟩ := p
  cases prov <;> rfl

/-- A Python value as it occurs in `prop.dict()` and in metadata processing. -/
inductive PVal where
  | none
  | str (s : String)
  | int (n : Int)
  | float (q : ℚ)
  | bool (b : Bool)
  | list (l : List PVal)
  | dict (d : List (String × PVal))

/-- Python `repr` of a dict value, as used when `str` renders a dict.  In
`prop.dict()` every dict value is a string; other shapes do not occur there
and render as the empty string in this model. -/
def pyDictValRepr : PVal → String
  | .str s => "'" ++ s ++ "'"
  | _ => ""

/-- Python `str()` of a metadata element, as used by
`', '.join(map(str, value))` and by the `str(value)` fallbacks in
`_process_metadata`.  In `prop.dict()` the elements reaching this function
are strings (feature tags) and dicts of strings (image records); a nested
list does not occur and renders as the empty string in this model. -/
def pyElemStr (fr : ℚ → String) : PVal → String
  | .none => "None"
  | .str s => s
  | .int n => toString n
  | .float q => fr q
  | .bool b => if b then "True" else "False"
  | .list _ => ""
  | .dict d =>
      "\x7b" ++ String.intercalate ", " (d.map fun kv => "'" ++ kv.1 ++ "': " ++ pyDictValRepr kv.2) ++ "\x7d"

/-- pydantic's `prop.dict()`: every field of the Property model, in
declaration order, as a Python value. -/
def Property.dict (p : Property) : List (String × PVal) :=
  [("id", .str p.id),
   ("date", .str p.date),
   ("ref", .str p.ref),
   ("price", .float p.price),
   ("currency", .str p.currency),
   ("price_freq", .str p.price_freq),
   ("new_build", .bool p.new_build),
   ("type", .str p.type),
   ("town", .str p.town),
   ("province", match p.province with | some s => .str s | Option.none => .none),
   ("country", .str p.country),
   ("beds", match p.beds with | some n => .int n | Option.none => .none),
   ("baths", match p.baths with | some n => .int n | Option.none => .none),
   ("surface_area_built", match p.surface_area_built with | some q => .float q | Option.none => .none),
   ("surface_area_plot", match p.surface_area_plot with | some q => .float q | Option.none => .none),
   ("desc", .dict (p.desc.map fun kv => (kv.1, .str kv.2))),
   ("features", .list (p.features.map .str)),
   ("pool", .bool p.pool),
   ("property_name", .str p.property_name),
   ("images", .list (p.images.map fun d => .dict (d.map fun kv => (kv.1, .str kv.2))))]

/-- One entry of ChromaPropertyStore._process_metadata (chroma_store.py
lines 33-59).  Notes kept from the source:
- Python `bool` is a subclass of `int`, so a boolean value is caught by the
  `isinstance(value, (int, float))` branch and rendered `str(True)`/`str(False)`
  with a capital letter; the lowercase-bool branch below it is unreachable;
- a dict under the key 'desc' that has an 'es' entry contributes that entry's
  value directly; any other dict falls back to `str(value)`. -/
def processValue (fr : ℚ → String) (key : String) : PVal → String
  | .none =>
      if key = "beds" ∨ key = "baths" then "0"
      else if key = "surface_area_built" ∨ key = "surface_area_plot" ∨ key = "price" then "0.0"
      else ""
  | .list l =>
      match l with
      | [] => ""
      | l => String.intercalate ", " (l.map (pyElemStr fr))
  | .int n => toString n
  | .float q => fr q
  | .bool b => if b then "True" else "False"
  | .dict d =>
      if key = "desc" ∧ (d.lookup "es").isSome then
        match d.lookup "es" with
        | some (.str s) => s
        | some v => pyElemStr fr v
        | Option.none => ""
      else pyElemStr fr (.dict d)
  | .str s => s

/-- The attribute map written on load: `_process_metadata(prop.dict())`. -/
def encodeMeta (fr : ℚ → String) (p : Property) : List (String × String) :=
  p.dict.map fun kv => (kv.1, processValue fr kv.1 kv.2)

/-- Python str.lower, character by character. -/
def pyLower (s : String) : String := ⟨s.data.map Char.toLower⟩

/-- Worker for Python str.split(sep): scan left to right, cut at each
occurrence of the (nonempty) separator.  The fuel argument only bounds the
recursion; it is always supplied large enough that it never runs out. -/
def pySplitAux (sep : List Char) : Nat → List Char → List Char → List (List Char)
  | 0, s, acc => [acc.reverse ++ s]
  | fuel+1, s, acc =>
    match s with
    | [] => [acc.reverse]
    | c :: rest =>
      if sep.isPrefixOf (c :: rest) then
        acc.reverse :: pySplitAux sep fuel (List.drop sep.length (c :: rest)) []
      else pySplitAux sep fuel rest (c :: acc)

/-- Python `s.split(sep)` for a nonempty separator: `"".split(", ") = [""]`,
`"a, b".split(", ") = ["a", "b"]`. -/
def pySplit (s sep : String) : List String :=
  (pySplitAux sep.data (s.data.length + 1) s.data []).map (fun l => ⟨l⟩)

/-- Python str.strip(): drop whitespace from both ends. -/
def pyTrim (s : String) : String :=
  ⟨((s.data.dropWhile (·.isWhitespace)).reverse.dropWhile (·.isWhitespace)).reverse⟩

/-- Per-key reconstruction applied by ChromaPropertyStore.search to each
returned metadata entry (chroma_store.py lines 174-196).  `pf` models
Python `float(str)` and `pi` models `int(str)`; a parse failure is the
exception the surrounding try/except catches. -/
def decodeEntry (pf : String → Except String ℚ) (pi : String → Except String Int)
    (key value : String) : Except String PVal :=
  if key = "features" then
    .ok (.list (if value = "" then [] else (pySplit value ", ").map .str))
  else if key = "desc" then
    .ok (.dict [("es", .str (if value = "" then "" else value))])
  else if key = "images" then
    .ok (.list (if value = "" then [] else (pySplit value ", ").map fun u => .dict [("url", .str (pyTrim u))]))
  else if key = "beds" ∨ key = "baths" then
    (if value = "" then .ok .none else (pi value).map .int)
  else if key = "surface_area_built" ∨ key = "surface_area_plot" ∨ key = "price" then
    (if value = "" then .ok .none else (pf value).map .float)
  else if value = "" then .ok .none
  else if pyLower value = "true" ∨ pyLower value = "false" then
    .ok (.bool (pyLower value = "true"))
  else .ok (.str value)

/-- "boolean-looking" in the decode rules: `value.lower() in ('true','false')`. -/
def boolLooking (s : String) : Bool :=
  decide (pyLower s = "true") || decide (pyLower s = "false")

/-- Encode the listing, look a key up in the attribute map, decode it. -/
def roundTripField (fr : ℚ → String) (pf : String → Except String ℚ)
    (pi : String → Except String Int) (p : Property) (key : String) :
    Option (Except String PVal) :=
  ((encodeMeta fr p).lookup key).map (decodeEntry pf pi key)

/-- A concrete `float(str)` parser inverting fr0 on the values it produces. -/
def pf0 : String → Except String ℚ := fun s =>
  if s = "0.0" then .ok 0
  else if s = "120.0" then .ok 120
  else if s = "140000.0" then .ok 140000
  else .error "ValueError"

/-- A concrete `int(str)` parser for small numerals. -/
def pi0 : String → Except String Int := fun s =>
  if s = "0" then .ok 0
  else if s = "1" then .ok 1
  else if s = "2" then .ok 2
  else .error "ValueError"

/-- Concrete listing whose province is the empty string. -/
def sampleC : Property := { sampleA with province := some "" }

lemma decodeEntry_plain (pf : String → Except String ℚ) (pi : String → Except String Int)
    (k v : String)
    (hk : k ≠ "features" ∧ k ≠ "desc" ∧ k ≠ "images" ∧ k ≠ "beds" ∧ k ≠ "baths" ∧
          k ≠ "surface_area_built" ∧ k ≠ "surface_area_plot" ∧ k ≠ "price")
    (hv : v ≠ "") (hb : boolLooking v = false) :
    decodeEntry pf pi k v = .ok (.str v) := by
  obtain ⟨h1, h2, h3, h4, h5, h6, h7, h8⟩ := hk
  have hb' : ¬(pyLower v = "true" ∨ pyLower v = "false") := by
    simp [boolLooking] at hb
    exact not_or.mpr hb
  unfold decodeEntry
  rw [if_neg h1, if_neg h2, if_neg h3, if_neg (by simp [h4, h5]),
      if_neg (by simp [h6, h7, h8]), if_neg hv, if_neg hb']

lemma decodeEntry_beds_key (pf : String → Except String ℚ) (pi : String → Except String Int)
    (v : String) :
    decodeEntry pf pi "beds" v = (if v = "" then Except.ok PVal.none else (pi v).map PVal.int) := rfl

lemma decodeEntry_baths_key (pf : String → Except String ℚ) (pi : String → Except String Int)
    (v : String) :
    decodeEntry pf pi "baths" v = (if v = "" then Except.ok PVal.none else (pi v).map PVal.int) := rfl

lemma decodeEntry_sab_key (pf : String → Except String ℚ) (pi : String → Except String Int)
    (v : String) :
    decodeEntry pf pi "surface_area_built" v
      = (if v = "" then Except.ok PVal.none else (pf v).map PVal.float) := rfl

lemma decodeEntry_sap_key (pf : String → Except String ℚ) (pi : String → Except String Int)
    (v : String) :
    decodeEntry pf pi "surface_area_plot" v
      = (if v = "" then Except.ok PVal.none else (pf v).map PVal.float) := rfl

lemma decodeEntry_price_key (pf : String → Except String ℚ) (pi : String → Except String Int)
    (v : String) :
    decodeEntry pf pi "price" v
      = (if v = "" then Except.ok PVal.none else (pf v).map PVal.float) := rfl

lemma decodeEntry_features_key (pf : String → Except String ℚ) (pi : String → Except String Int)
    (v : String) :
    decodeEntry pf pi "features" v
      = Except.ok (PVal.list (if v = "" then [] else (pySplit v ", ").map PVal.str)) := rfl

lemma decodeEntry_province_key (pf : String → Except String ℚ) (pi : String → Except String Int)
    (v : String) :
    decodeEntry pf pi "province" v
      = (if v = "" then Except.ok PVal.none
         else if pyLower v = "true" ∨ pyLower v = "false" then Except.ok (PVal.bool (pyLower v = "true"))
         else Except.ok (PVal.str v)) := rfl

lemma map_pyElemStr_str (fr : ℚ → String) (l : List String) :
    (l.map PVal.str).map (pyElemStr fr) = l := by
  induction l with
  | nil => rfl
  | cons a t ih => simp [pyElemStr, ih]

/-- C5 counterexample: the claim's "scalar fields reproduce exactly" fails.
At a listing whose province is present and equal to the empty string, the
encoded attribute map holds "" under 'province' and the per-key
reconstruction turns it into None (the `value == ""` rule applies to every
non-special key, not only to numeric fields), which is not the original
string value. -/
theorem C5_counterexample :
    sampleC.dict.lookup "province" = some (PVal.str "") ∧
    roundTripField fr0 pf0 pi0 sampleC "province" = some (.ok PVal.none) ∧
    PVal.none ≠ PVal.str "" :=
  ⟨rfl, rfl, fun h => PVal.noConfusion h⟩

/-- C5 (amended): decoding the attribute map produced by encoding a Listing
reproduces its scalar fields exactly provided their encoded value is
non-empty and not boolean-looking — the decoder's `value == ""` rule applies
to EVERY non-special key, not only to numeric fields, so an empty-string
scalar (or an absent province) decodes to None — and reproduces list/boolean
fields up to the documented lossy conventions: an empty feature list decodes
to the empty list (not a one-element list holding ""), boolean-looking
strings decode to booleans, and an absent numeric field round-trips to the
literal zero sentinel (0 for beds/baths, 0.0 for the float fields), not to a
spurious None.  `fr`/`pf`/`pi` are Python's float rendering and float/int
parsing; the hypotheses state that they agree on the values involved and
that the feature tags survive the join/split (no ", " inside a tag). -/
theorem C5_amended (fr : ℚ → String) (pf : String → Except String ℚ)
    (pi : String → Except String Int) (p : Property)
    (HS : ∀ s ∈ [p.id, p.date, p.ref, p.currency, p.price_freq, p.type,
                 p.town, p.country, p.property_name],
            s ≠ "" ∧ boolLooking s = false)
    (Hprice : pf (fr p.price) = .ok p.price ∧ fr p.price ≠ "")
    (Hbeds : ∀ n, p.beds = some n → pi (toString n) = .ok n ∧ toString n ≠ "")
    (Hbaths : ∀ n, p.baths = some n → pi (toString n) = .ok n ∧ toString n ≠ "")
    (Hzero : pi "0" = .ok 0)
    (Hsab : ∀ q, p.surface_area_built = some q → pf (fr q) = .ok q ∧ fr q ≠ "")
    (Hsap : ∀ q, p.surface_area_plot = some q → pf (fr q) = .ok q ∧ fr q ≠ "")
    (Hzf : pf "0.0" = .ok 0)
    (Hfeat : p.features ≠ [] →
        String.intercalate ", " p.features ≠ "" ∧
        pySplit (String.intercalate ", " p.features) ", " = p.features) :
    roundTripField fr pf pi p "id" = some (.ok (.str p.id)) ∧
    roundTripField fr pf pi p "date" = some (.ok (.str p.date)) ∧
    roundTripField fr pf pi p "ref" = some (.ok (.str p.ref)) ∧
    roundTripField fr pf pi p "currency" = some (.ok (.str p.currency)) ∧
    roundTripField fr pf pi p "price_freq" = some (.ok (.str p.price_freq)) ∧
    roundTripField fr pf pi p "type" = some (.ok (.str p.type)) ∧
    roundTripField fr pf pi p "town" = some (.ok (.str p.town)) ∧
    roundTripField fr pf pi p "country" = some (.ok (.str p.country)) ∧
    roundTripField fr pf pi p "property_name" = some (.ok (.str p.property_name)) ∧
    roundTripField fr pf pi p "price" = some (.ok (.float p.price)) ∧
    roundTripField fr pf pi p "beds" = some (.ok (.int (p.beds.getD 0))) ∧
    roundTripField fr pf pi p "baths" = some (.ok (.int (p.baths.getD 0))) ∧
    roundTripField fr pf pi p "surface_area_built"
      = some (.ok (.float (p.surface_area_built.getD 0))) ∧
    roundTripField fr pf pi p "surface_area_plot"
      = some (.ok (.float (p.surface_area_plot.getD 0))) ∧
    roundTripField fr pf pi p "new_build" = some (.ok (.bool p.new_build)) ∧
    roundTripField fr pf pi p "pool" = some (.ok (.bool p.pool)) ∧
    roundTripField fr pf pi p "features" = some (.ok (.list (p.features.map .str))) ∧
    roundTripField fr pf pi p "province" = some (.ok (match p.province with
      | Option.none => PVal.none
      | some s =>
          if s = "" then PVal.none
          else if boolLooking s then PVal.bool (pyLower s = "true")
          else PVal.str s)) := by
  refine ⟨?_, ?_, ?_, ?_, ?_, ?_, ?_, ?_, ?_, ?_, ?_, ?_, ?_, ?_, ?_, ?_, ?_, ?_⟩
  · have h := HS p.id (by simp)
    exact (show roundTripField fr pf pi p "id" = some (decodeEntry pf pi "id" p.id) from rfl).trans
      (congrArg some (decodeEntry_plain pf pi "id" p.id (by decide) h.1 h.2))
  · have h := HS p.date (by simp)
    exact (show roundTripField fr pf pi p "date" = some (decodeEntry pf pi "date" p.date) from rfl).trans
      (congrArg some (decodeEntry_plain pf pi "date" p.date (by decide) h.1 h.2))
  · have h := HS p.ref (by simp)
    exact (show roundTripField fr pf pi p "ref" = some (decodeEntry pf pi "ref" p.ref) from rfl).trans
      (congrArg some (decodeEntry_plain pf pi "ref" p.ref (by decide) h.1 h.2))
  · have h := HS p.currency (by simp)
    exact (show roundTripField fr pf pi p "currency" = some (decodeEntry pf pi "currency" p.currency) from rfl).trans
      (congrArg some (decodeEntry_plain pf pi "currency" p.currency (by decide) h.1 h.2))
  · have h := HS p.price_freq (by simp)
    exact (show roundTripField fr pf pi p "price_freq" = some (decodeEntry pf pi "price_freq" p.price_freq) from rfl).trans
      (congrArg some (decodeEntry_plain pf pi "price_freq" p.price_freq (by decide) h.1 h.2))
  · have h := HS p.type (by simp)
    exact (show roundTripField fr pf pi p "type" = some (decodeEntry pf pi "type" p.type) from rfl).trans
      (congrArg some (decodeEntry_plain pf pi "type" p.type (by decide) h.1 h.2))
  · have h := HS p.town (by simp)
    exact (show roundTripField fr pf pi p "town" = some (decodeEntry pf pi "town" p.town) from rfl).trans
      (congrArg some (decodeEntry_plain pf pi "town" p.town (by decide) h.1 h.2))
  · have h := HS p.country (by simp)
    exact (show roundTripField fr pf pi p "country" = some (decodeEntry pf pi "country" p.country) from rfl).trans
      (congrArg some (decodeEntry_plain pf pi "country" p.country (by decide) h.1 h.2))
  · have h := HS p.property_name (by simp)
    exact (show roundTripField fr pf pi p "property_name" = some (decodeEntry pf pi "property_name" p.property_name) from rfl).trans
      (congrArg some (decodeEntry_plain pf pi "property_name" p.property_name (by decide) h.1 h.2))
  · rw [show roundTripField fr pf pi p "price" = some (decodeEntry pf pi "price" (fr p.price)) from rfl,
        decodeEntry_price_key, if_neg Hprice.2, Hprice.1]
    rfl
  · cases hb : p.beds with
    | none =>
        have e : roundTripField fr pf pi p "beds" = some ((pi "0").map PVal.int) := by
          rw [show roundTripField fr pf pi p "beds"
                = some (decodeEntry pf pi "beds" (processValue fr "beds"
                    (match p.beds with | some n => PVal.int n | Option.none => PVal.none))) from rfl,
              hb]
          rfl
        rw [e, Hzero]
        rfl
    | some n =>
        have hn := Hbeds n hb
        have e : roundTripField fr pf pi p "beds"
            = some (if toString n = "" then Except.ok PVal.none else (pi (toString n)).map PVal.int) := by
          rw [show roundTripField fr pf pi p "beds"
                = some (decodeEntry pf pi "beds" (processValue fr "beds"
                    (match p.beds with | some n => PVal.int n | Option.none => PVal.none))) from rfl,
              hb]
          rfl
        rw [e, if_neg hn.2, hn.1]
        rfl
  · cases hb : p.baths with
    | none =>
        have e : roundTripField fr pf pi p "baths" = some ((pi "0").map PVal.int) := by
          rw [show roundTripField fr pf pi p "baths"
                = some (decodeEntry pf pi "baths" (processValue fr "baths"
                    (match p.baths with | some n => PVal.int n | Option.none => PVal.none))) from rfl,
              hb]
          rfl
        rw [e, Hzero]
        rfl
    | some n =>
        have hn := Hbaths n hb
        have e : roundTripField fr pf pi p "baths"
            = some (if toString n = "" then Except.ok PVal.none else (pi (toString n)).map PVal.int) := by
          rw [show roundTripField fr pf pi p "baths"
                = some (decodeEntry pf pi "baths" (processValue fr "baths"
                    (match p.baths with | some n => PVal.int n | Option.none => PVal.none))) from rfl,
              hb]
          rfl
        rw [e, if_neg hn.2, hn.1]
        rfl
  · cases hq : p.surface_area_built with
    | none =>
        have e : roundTripField fr pf pi p "surface_area_built" = some ((pf "0.0").map PVal.float) := by
          rw [show roundTripField fr pf pi p "surface_area_built"
                = some (decodeEntry pf pi "surface_area_built" (processValue fr "surface_area_built"
                    (match p.surface_area_built with | some q => PVal.float q | Option.none => PVal.none))) from rfl,
              hq]
          rfl
        rw [e, Hzf]
        rfl
    | some q =>
        have hn := Hsab q hq
        have e : roundTripField fr pf pi p "surface_area_built"
            = some (if fr q = "" then Except.ok PVal.none else (pf (fr q)).map PVal.float) := by
          rw [show roundTripField fr pf pi p "surface_area_built"
                = some (decodeEntry pf pi "surface_area_built" (processValue fr "surface_area_built"
                    (match p.surface_area_built with | some q => PVal.float q | Option.none => PVal.none))) from rfl,
              hq]
          rfl
        rw [e, if_neg hn.2, hn.1]
        rfl
  · cases hq : p.surface_area_plot with
    | none =>
        have e : roundTripField fr pf pi p "surface_area_plot" = some ((pf "0.0").map PVal.float) := by
          rw [show roundTripField fr pf pi p "surface_area_plot"
                = some (decodeEntry pf pi "surface_area_plot" (processValue fr "surface_area_plot"
                    (match p.surface_area_plot with | some q => PVal.float q | Option.none => PVal.none))) from rfl,
              hq]
          rfl
        rw [e, Hzf]
        rfl
    | some q =>
        have hn := Hsap q hq
        have e : roundTripField fr pf pi p "surface_area_plot"
            = some (if fr q = "" then Except.ok PVal.none else (pf (fr q)).map PVal.float) := by
          rw [show roundTripField fr pf pi p "surface_area_plot"
                = some (decodeEntry pf pi "surface_area_plot" (processValue fr "surface_area_plot"
                    (match p.surface_area_plot with | some q => PVal.float q | Option.none => PVal.none))) from rfl,
              hq]
          rfl
        rw [e, if_neg hn.2, hn.1]
        rfl
  · cases hb : p.new_build with
    | false =>
        rw [show roundTripField fr pf pi p "new_build"
              = some (decodeEntry pf pi "new_build" (if p.new_build then "True" else "False")) from rfl, hb]
        rfl
    | true =>
        rw [show roundTripField fr pf pi p "new_build"
              = some (decodeEntry pf pi "new_build" (if p.new_build then "True" else "False")) from rfl, hb]
        rfl
  · cases hb : p.pool with
    | false =>
        rw [show roundTripField fr pf pi p "pool"
              = some (decodeEntry pf pi "pool" (if p.pool then "True" else "False")) from rfl, hb]
        rfl
    | true =>
        rw [show roundTripField fr pf pi p "pool"
              = some (decodeEntry pf pi "pool" (if p.pool then "True" else "False")) from rfl, hb]
        rfl
  · cases hf : p.features with
    | nil =>
        rw [show roundTripField fr pf pi p "features"
              = some (decodeEntry pf pi "features" (processValue fr "features"
                  (PVal.list (p.features.map PVal.str)))) from rfl, hf]
        rfl
    | cons f fs =>
        have hne := Hfeat (by rw [hf]; simp)
        have e : roundTripField fr pf pi p "features"
            = some (decodeEntry pf pi "features" (String.intercalate ", " p.features)) := by
          rw [show roundTripField fr pf pi p "features"
                = some (decodeEntry pf pi "features" (processValue fr "features"
                    (PVal.list (p.features.map PVal.str)))) from rfl, hf]
          rw [show processValue fr "features" (PVal.list ((f :: fs).map PVal.str))
                = String.intercalate ", " (((f :: fs).map PVal.str).map (pyElemStr fr)) from rfl]
          rw [map_pyElemStr_str]
        rw [e, decodeEntry_features_key, if_neg hne.1, hne.2, hf]
  · cases hp : p.province with
    | none =>
        rw [show roundTripField fr pf pi p "province"
              = some (decodeEntry pf pi "province" (processValue fr "province"
                  (match p.province with | some s => PVal.str s | Option.none => PVal.none))) from rfl, hp]
        rfl
    | some s =>
        rw [show roundTripField fr pf pi p "province"
              = some (decodeEntry pf pi "province" (processValue fr "province"
                  (match p.province with | some s => PVal.str s | Option.none => PVal.none))) from rfl, hp]
        show some (decodeEntry pf pi "province" s)
          = some (Except.ok (if s = "" then PVal.none
              else if boolLooking s then PVal.bool (pyLower s = "true") else PVal.str s))
        rw [decodeEntry_province_key]
        by_cases h1 : s = ""
        · rw [if_pos h1, if_pos h1]
        · rw [if_neg h1, if_neg h1]
          by_cases h2 : pyLower s = "true" ∨ pyLower s = "false"
          · rw [if_pos h2, if_pos (show boolLooking s = true by simpa [boolLooking] using h2)]
          · rw [if_neg h2, if_neg (show ¬ boolLooking s = true by simpa [boolLooking] using h2)]

/-- C5 witness: the amended round-trip theorem applied to a concrete listing
(sampleA) with a concrete rendering/parsing pair, every hypothesis
discharged by evaluation. -/
theorem C5_amended_witness :
    roundTripField fr0 pf0 pi0 sampleA "id" = some (.ok (.str "1")) ∧
    roundTripField fr0 pf0 pi0 sampleA "price" = some (.ok (.float 140000)) ∧
    roundTripField fr0 pf0 pi0 sampleA "beds" = some (.ok (.int 2)) ∧
    roundTripField fr0 pf0 pi0 sampleA "surface_area_built" = some (.ok (.float 0)) ∧
    roundTripField fr0 pf0 pi0 sampleA "pool" = some (.ok (.bool true)) ∧
    roundTripField fr0 pf0 pi0 sampleA "features" = some (.ok (.list [PVal.str "Pool"])) := by
  have h := C5_amended fr0 pf0 pi0 sampleA
    (by decide)
    ⟨rfl, by decide⟩
    (by
      intro n hn
      rw [show sampleA.beds = some 2 from rfl] at hn
      injection hn with h2
      subst h2
      exact ⟨rfl, by decide⟩)
    (by
      intro n hn
      rw [show sampleA.baths = some 1 from rfl] at hn
      injection hn with h2
      subst h2
      exact ⟨rfl, by decide⟩)
    rfl
    (by
      intro q hq
      rw [show sampleA.surface_area_built = Option.none from rfl] at hq
      exact Option.noConfusion hq)
    (by
      intro q hq
      rw [show sampleA.surface_area_plot = Option.none from rfl] at hq
      exact Option.noConfusion hq)
    rfl
    (fun _ => ⟨by decide, by decide⟩)
  obtain ⟨h1, h2, h3, h4, h5, h6, h7, h8, h9, h10, h11, h12, h13, h14, h15, h16, h17, h18⟩ := h
  exact ⟨h1, h10, h11, h13, h16, h17⟩

/-- Python dict assignment `d[k] = v` on an association list: replace in
place when the key exists, else append (insertion order preserved). -/
def upsertAssoc {κ α : Type} [DecidableEq κ] (k : κ) (v : α) : List (κ × α) → List (κ × α)
  | [] => [(k, v)]
  | (k', v') :: t => if k = k' then (k, v) :: t else (k', v') :: upsertAssoc k v t

/-- Record a written file in the filesystem model. -/
def Fs.write (fs : Fs) (p : FsPath) : Fs := p :: fs

/-- The similarity conversion in FAISSPropertyStore.search (faiss_store.py
line 66): the backend reports an L2 distance, the store reports
`1 / (1 + distance)`. -/
def faissSimilarity (d : ℚ) : ℚ := 1 / (1 + d)

/-- The metadata dict built by PropertyVectorStore._create_documents
(src/vectorstore/base.py lines 29-49): None beds/baths/surface become the
appropriate zero. -/
structure FaissMeta where
  id : String
  price : ℚ
  type : String
  town : String
  beds : Int
  baths : Int
  surface_area : ℚ
deriving DecidableEq

/-- A LangChain Document as stored in the FAISS index. -/
structure FaissDoc where
  page_content : String
  metadata : FaissMeta
deriving DecidableEq

/-- The langchain FAISS object: embedding dimensionality plus the stored
documents. -/
structure FaissIndex where
  dim : Nat
  docs : List FaissDoc
deriving DecidableEq

/-- PropertyVectorStore._create_documents (base.py lines 29-49): builds one
document per listing and records each listing in the instance's properties
map (`self.properties[prop.id] = prop`).  Returns the documents and the
updated map. -/
def PropertyVectorStore.create_documents (fr : ℚ → String) (props : List Property)
    (properties : List (String × Property)) : List FaissDoc × List (String × Property) :=
  match props with
  | [] => ([], properties)
  | p :: rest =>
      let doc : FaissDoc :=
        { page_content := p.to_embedding_text fr
          metadata :=
            { id := p.id
              price := p.price
              type := p.type
              town := p.town
              beds := p.beds.getD 0
              baths := p.baths.getD 0
              surface_area := p.surface_area_built.getD 0 } }
      let rec_result := PropertyVectorStore.create_documents fr rest (upsertAssoc p.id p properties)
      (doc :: rec_result.1, rec_result.2)

/-- The mutable state of a FAISSPropertyStore instance together with the
filesystem and the persisted index its directory holds.  `diskIndex` is
what a successful `FAISS.load_local` on the persist directory would return;
`embeddingDim` is the output dimensionality of the pinned embedding model. -/
structure FaissState where
  persist_directory : FsPath
  embeddingDim : Nat
  fs : Fs
  diskIndex : Option FaissIndex
  vector_store : Option FaissIndex
  properties : List (String × Property)
deriving DecidableEq

/-- faiss_store.py line 12: `index.faiss` under the persist directory. -/
def FAISSPropertyStore.index_file (s : FaissState) : FsPath :=
  s.persist_directory ++ ["index.faiss"]

/-- faiss_store.py line 13: `store.pkl` under the persist directory. -/
def FAISSPropertyStore.store_file (s : FaissState) : FsPath :=
  s.persist_directory ++ ["store.pkl"]

/-- FAISSPropertyStore.__init__ + _initialize_store (faiss_store.py lines
9-22): the base constructor makes an empty properties map and no vector
store; _initialize_store binds the persisted index iff BOTH index.faiss and
store.pkl exist. -/
def FAISSPropertyStore.init (persist_directory : FsPath) (embeddingDim : Nat)
    (fs : Fs) (disk : Option FaissIndex) : FaissState :=
  let s : FaissState :=
    { persist_directory := persist_directory, embeddingDim := embeddingDim,
      fs := fs, diskIndex := disk, vector_store := Option.none, properties := [] }
  if pathExists fs (FAISSPropertyStore.index_file s) && pathExists fs (FAISSPropertyStore.store_file s) then
    { s with vector_store := disk }
  else s

/-- FAISSPropertyStore.needs_loading (faiss_store.py lines 24-27). -/
def FAISSPropertyStore.needs_loading (s : FaissState) : Bool :=
  ! (pathExists s.fs (FAISSPropertyStore.index_file s) &&
     pathExists s.fs (FAISSPropertyStore.store_file s))

/-- FAISSPropertyStore.clear (faiss_store.py lines 29-35): drop the
in-memory index, rmtree the persist directory (destroying the persisted
index with it), recreate the empty directory. -/
def FAISSPropertyStore.clear (s : FaissState) : FaissState :=
  { s with vector_store := Option.none,
           fs := (s.fs.rmtree s.persist_directory).makedirs s.persist_directory,
           diskIndex := Option.none }

/-- Models langchain `FAISS.from_documents(docs, embeddings)`: the library
embeds every page_content and sizes the index from the first embedding, so
with no documents it raises (`IndexError` from `len(embeddings[0])`).  A
fresh index over the given documents otherwise. -/
def FAISS.from_documents (dim : Nat) (docs : List FaissDoc) : Except String FaissIndex :=
  match docs with
  | [] => .error "IndexError: list index out of range"
  | _ => .ok { dim := dim, docs := docs }

/-- Models langchain `FAISS.save_local(folder)`: writes
`<folder>/index.faiss` and pickles the docstore to `<folder>/index.pkl`
(default index_name "index" — note it never writes the `store.pkl` that
FAISSPropertyStore.needs_loading checks for). -/
def FAISS.save_local (dir : FsPath) (fs : Fs) : Fs :=
  (fs.write (dir ++ ["index.faiss"])).write (dir ++ ["index.pkl"])

/-- FAISSPropertyStore.load_properties (faiss_store.py lines 37-51): clear,
build documents (updating the properties map — note clear() never resets
the map), FAISS.from_documents, makedirs, save_local.  Returns the call's
outcome and the state the instance is left in; an exception leaves the
mutations already made in place. -/
def FAISSPropertyStore.load_properties (fr : ℚ → String) (s : FaissState)
    (props : List Property) : Except String Unit × FaissState :=
  let s1 := FAISSPropertyStore.clear s
  let dm := PropertyVectorStore.create_documents fr props s1.properties
  let s2 := { s1 with properties := dm.2 }
  match FAISS.from_documents s2.embeddingDim dm.1 with
  | .error e => (.error e, s2)
  | .ok idx =>
      (.ok (), { s2 with vector_store := some idx,
                         fs := FAISS.save_local s2.persist_directory (s2.fs.makedirs s2.persist_directory),
                         diskIndex := some idx })

/-- FAISSPropertyStore.search (faiss_store.py lines 53-72).  When the store
is unbound it returns [] before calling the backend.  Otherwise the backend
call `similarity_search_with_score(query, k=top_k)` runs; its outcome — a
list of (document, L2 distance) pairs, or a raised backend fault — is the
`results` argument.  There is no try/except in this method, so a backend
fault propagates to the caller.  A match is produced only for ids present
in the in-memory properties map. -/
def FAISSPropertyStore.search (s : FaissState)
    (results : Except String (List (FaissDoc × ℚ))) :
    Except String (List PropertyMatch) :=
  if s.vector_store.isNone then .ok []
  else
    match results with
    | .error e => .error e
    | .ok rs => .ok (rs.filterMap fun dr =>
        match s.properties.lookup dr.1.metadata.id with
        | some p => some { property := p, similarity := faissSimilarity dr.2 }
        | Option.none => Option.none)

/-- config.py StorageMode. -/
inductive StorageMode where
  | memory
  | disk
deriving DecidableEq

/-- A document stored in a Chroma collection: text plus processed metadata. -/
structure ChromaDoc where
  page_content : String
  metadata : List (String × String)
deriving DecidableEq

/-- A chromadb collection: the embedding dimensionality fixed by the first
add (none while empty) and the stored documents keyed by their ids. -/
structure ChromaCollection where
  dim : Option Nat
  docs : List (String × ChromaDoc)
deriving DecidableEq

/-- A collection with nothing in it. -/
def ChromaCollection.empty : ChromaCollection := { dim := Option.none, docs := [] }

/-- The mutable state of a ChromaPropertyStore instance together with the
filesystem and, for durable mode, the collections persisted under each
chroma data directory (what a chromadb PersistentClient at that path
holds). -/
structure ChromaState where
  storage_mode : StorageMode
  persist_directory : Option FsPath
  chroma_data_directory : Option FsPath
  embeddingDim : Nat
  fs : Fs
  diskCollections : List (FsPath × ChromaCollection)
  vector_store : Option ChromaCollection
  properties : List (String × Property)
deriving DecidableEq

/-- ChromaPropertyStore.__init__ (chroma_store.py lines 14-26): the data
directory is `<persist>/.chroma` when durable and a directory is given,
otherwise both directory fields are None. -/
def ChromaPropertyStore.init (persist_directory : Option FsPath)
    (storage_mode : StorageMode) (embeddingDim : Nat) (fs : Fs)
    (diskCollections : List (FsPath × ChromaCollection)) : ChromaState :=
  if storage_mode = StorageMode.disk ∧ persist_directory.isSome then
    { storage_mode := storage_mode
      persist_directory := persist_directory
      chroma_data_directory := persist_directory.map (fun d => d ++ [".chroma"])
      embeddingDim := embeddingDim
      fs := fs
      diskCollections := diskCollections
      vector_store := Option.none
      properties := [] }
  else
    { storage_mode := storage_mode
      persist_directory := Option.none
      chroma_data_directory := Option.none
      embeddingDim := embeddingDim
      fs := fs
      diskCollections := diskCollections
      vector_store := Option.none
      properties := [] }

/-- ChromaPropertyStore._clean_directory (chroma_store.py lines 28-32):
rmtree then recreate; removing the directory destroys any collection
persisted beneath it. -/
def ChromaPropertyStore.clean_directory (fs : Fs)
    (dc : List (FsPath × ChromaCollection)) (d : FsPath) :
    Fs × List (FsPath × ChromaCollection) :=
  ((fs.rmtree d).makedirs d, dc.filter (fun kv => ! underDir d kv.1))

/-- ChromaPropertyStore._initialize_store (chroma_store.py lines 83-105).
Durable mode: makedirs the data directory, construct a chromadb
PersistentClient — client construction eagerly creates the sqlite database
artifact `chroma.sqlite3` in that directory — and bind the collection
"properties" persisted there (get_or_create: a fresh empty one if absent).
Volatile mode: a fresh ephemeral client with a fresh empty collection.
(With durable mode but no data directory the source would raise a TypeError
from `os.makedirs(None)`; states built by the constructor never reach
that combination, and it is left as the identity here.) -/
def ChromaPropertyStore.initialize_store (s : ChromaState) : ChromaState :=
  match s.storage_mode, s.chroma_data_directory with
  | StorageMode.disk, some d =>
      let c := (s.diskCollections.lookup d).getD ChromaCollection.empty
      { s with fs := (s.fs.makedirs d).write (d ++ ["chroma.sqlite3"])
               diskCollections := upsertAssoc d c s.diskCollections
               vector_store := some c }
  | StorageMode.disk, Option.none => s
  | StorageMode.memory, _ => { s with vector_store := some ChromaCollection.empty }

/-- ChromaPropertyStore.clear (chroma_store.py lines 106-113): durable mode
cleans the data directory; both modes drop the bound store and the
properties map and re-run _initialize_store. -/
def ChromaPropertyStore.clear (s : ChromaState) : ChromaState :=
  let s1 := match s.storage_mode, s.chroma_data_directory with
    | StorageMode.disk, some d =>
        let fd := ChromaPropertyStore.clean_directory s.fs s.diskCollections d
        { s with fs := fd.1, diskCollections := fd.2 }
    | _, _ => s
  ChromaPropertyStore.initialize_store
    { s1 with vector_store := Option.none, properties := [] }

/-- ChromaPropertyStore.needs_loading (chroma_store.py lines 115-128):
durable mode is "needs loading" iff the data directory or its
`chroma.sqlite3` is missing; volatile mode always answers true.  (The
durable mode with no data directory raises inside the try and is caught:
true.) -/
def ChromaPropertyStore.needs_loading (s : ChromaState) : Bool :=
  match s.storage_mode, s.chroma_data_directory with
  | StorageMode.disk, some d =>
      if ! pathExists s.fs d then true
      else ! pathExists s.fs (d ++ ["chroma.sqlite3"])
  | StorageMode.disk, Option.none => true
  | StorageMode.memory, _ => true

/-- ChromaPropertyStore._create_documents (chroma_store.py lines 61-81):
documents carry the processed metadata; each listing is recorded in the
properties map under `str(prop.id)`. -/
def ChromaPropertyStore.create_documents (fr : ℚ → String) (props : List Property)
    (properties : List (String × Property)) : List ChromaDoc × List (String × Property) :=
  match props with
  | [] => ([], properties)
  | p :: rest =>
      let doc : ChromaDoc :=
        { page_content := p.to_embedding_text fr, metadata := encodeMeta fr p }
      let rec_result := ChromaPropertyStore.create_documents fr rest (upsertAssoc p.id p properties)
      (doc :: rec_result.1, rec_result.2)

/-- Models `Chroma.add_texts(texts, metadatas, ids)`: the client embeds each
text with the pinned model and upserts by id into the collection.  chromadb
rejects vectors whose dimensionality differs from the collection's existing
dimensionality (InvalidDimensionException); on its first add an empty
collection adopts the embedding dimensionality. -/
def Chroma.add_texts (embeddingDim : Nat) (c : ChromaCollection)
    (entries : List (String × ChromaDoc)) : Except String ChromaCollection :=
  match c.dim with
  | some d =>
      if d ≠ embeddingDim then .error "InvalidDimensionException"
      else .ok { dim := some d
                 docs := entries.foldl (fun acc kv => upsertAssoc kv.1 kv.2 acc) c.docs }
  | Option.none =>
      .ok { dim := some embeddingDim
            docs := entries.foldl (fun acc kv => upsertAssoc kv.1 kv.2 acc) c.docs }

/-- ChromaPropertyStore.load_properties (chroma_store.py lines 130-158):
empty input raises ValueError before any mutation; otherwise build the
documents (updating the properties map), re-run _initialize_store, and
`add_texts` under the positional ids "0", "1", ... — an upsert over
whatever the collection already holds (nothing is cleared first).  The
except-clause re-raises any failure as a generic Exception; mutations made
before the failure remain.  A successful durable-mode add is persisted by
the client. -/
def ChromaPropertyStore.load_properties (fr : ℚ → String) (s : ChromaState)
    (props : List Property) : Except String Unit × ChromaState :=
  if props.isEmpty then (.error "No properties provided to load", s)
  else
    let dm := ChromaPropertyStore.create_documents fr props s.properties
    let ids := (List.range dm.1.length).map (fun i => toString i)
    let s1 := ChromaPropertyStore.initialize_store { s with properties := dm.2 }
    match s1.vector_store with
    | Option.none =>
        (.error "Failed to load properties into ChromaDB: store not initialized", s1)
    | some c =>
        match Chroma.add_texts s1.embeddingDim c (ids.zip dm.1) with
        | .error e => (.error ("Failed to load properties into ChromaDB: " ++ e), s1)
        | .ok c' =>
            let s2 := { s1 with vector_store := some c' }
            match s2.storage_mode, s2.chroma_data_directory with
            | StorageMode.disk, some d =>
                (.ok (), { s2 with diskCollections := upsertAssoc d c' s2.diskCollections })
            | _, _ => (.ok (), s2)

/-- Property(**property_data): pydantic validation of a reconstructed dict.
Modelled from the library's behaviour as the code relies on it: a declared
field accepts a value of its declared shape, Optional fields accept None
and default to None when absent, fields with declared defaults may be
absent, ints are accepted for floats; anything else is a validation error
(raised, hence caught by the search try/except). -/
def Property.ofPVals (d : List (String × PVal)) : Except String Property := do
  let getStr := fun (k : String) => match d.lookup k with
    | some (.str s) => Except.ok s
    | _ => Except.error ("validation error: " ++ k)
  let getFloat := fun (k : String) => match d.lookup k with
    | some (.float q) => Except.ok q
    | some (.int n) => Except.ok (n : ℚ)
    | _ => Except.error ("validation error: " ++ k)
  let getOptStr := fun (k : String) => match d.lookup k with
    | some (.str s) => Except.ok (some s)
    | some .none => Except.ok (Option.none : Option String)
    | Option.none => Except.ok (Option.none : Option String)
    | _ => Except.error ("validation error: " ++ k)
  let getOptInt := fun (k : String) => match d.lookup k with
    | some (.int n) => Except.ok (some n)
    | some .none => Except.ok (Option.none : Option Int)
    | Option.none => Except.ok (Option.none : Option Int)
    | _ => Except.error ("validation error: " ++ k)
  let getOptFloat := fun (k : String) => match d.lookup k with
    | some (.float q) => Except.ok (some q)
    | some (.int n) => Except.ok (some (n : ℚ))
    | some .none => Except.ok (Option.none : Option ℚ)
    | Option.none => Except.ok (Option.none : Option ℚ)
    | _ => Except.error ("validation error: " ++ k)
  let getBoolD := fun (k : String) (dflt : Bool) => match d.lookup k with
    | some (.bool b) => Except.ok b
    | Option.none => Except.ok dflt
    | _ => Except.error ("validation error: " ++ k)
  let getDictStr := fun (k : String) => match d.lookup k with
    | some (.dict l) =>
        l.foldr (fun kv acc => match kv.2, acc with
          | .str s, Except.ok t => Except.ok ((kv.1, s) :: t)
          | _, _ => Except.error ("validation error: " ++ k)) (Except.ok [])
    | Option.none => Except.ok []
    | _ => Except.error ("validation error: " ++ k)
  let getListStr := fun (k : String) => match d.lookup k with
    | some (.list l) =>
        l.foldr (fun v acc => match v, acc with
          | .str s, Except.ok t => Except.ok (s :: t)
          | _, _ => Except.error ("validation error: " ++ k)) (Except.ok [])
    | Option.none => Except.ok []
    | _ => Except.error ("validation error: " ++ k)
  let getImages := fun (k : String) => match d.lookup k with
    | some (.list l) =>
        l.foldr (fun v acc => match v, acc with
          | .dict dl, Except.ok t =>
              (dl.foldr (fun kv acc2 => match kv.2, acc2 with
                | .str s, Except.ok t2 => Except.ok ((kv.1, s) :: t2)
                | _, _ => Except.error ("validation error: " ++ k)) (Except.ok [])).map
                (fun entry => entry :: t)
          | _, _ => Except.error ("validation error: " ++ k)) (Except.ok [])
    | Option.none => Except.ok []
    | _ => Except.error ("validation error: " ++ k)
  let id ← getStr "id"
  let date ← getStr "date"
  let ref ← getStr "ref"
  let price ← getFloat "price"
  let currency ← getStr "currency"
  let price_freq ← getStr "price_freq"
  let new_build ← getBoolD "new_build" false
  let ty ← getStr "type"
  let town ← getStr "town"
  let province ← getOptStr "province"
  let country ← getStr "country"
  let beds ← getOptInt "beds"
  let baths ← getOptInt "baths"
  let sab ← getOptFloat "surface_area_built"
  let sap ← getOptFloat "surface_area_plot"
  let desc ← getDictStr "desc"
  let features ← getListStr "features"
  let pool ← getBoolD "pool" false
  let property_name ← getStr "property_name"
  let images ← getImages "images"
  Except.ok
    { id := id, date := date, ref := ref, price := price, currency := currency,
      price_freq := price_freq, new_build := new_build, type := ty, town := town,
      province := province, country := country, beds := beds, baths := baths,
      surface_area_built := sab, surface_area_plot := sap, desc := desc,
      features := features, pool := pool, property_name := property_name,
      images := images }

/-- Decode every metadata entry of a returned document (the per-key loop in
ChromaPropertyStore.search); the first parse failure is the raised
exception. -/
def decodeAll (pf : String → Except String ℚ) (pi : String → Except String Int) :
    List (String × String) → Except String (List (String × PVal))
  | [] => .ok []
  | (k, v) :: rest => do
      let pv ← decodeEntry pf pi k v
      let t ← decodeAll pf pi rest
      .ok ((k, pv) :: t)

/-- The match-building loop of ChromaPropertyStore.search (chroma_store.py
lines 173-200): reconstruct a Property from each document's metadata and
pair it with the backend's relevance score, unchanged. -/
def reconstructMatches (pf : String → Except String ℚ) (pi : String → Except String Int) :
    List (ChromaDoc × ℚ) → Except String (List PropertyMatch)
  | [] => .ok []
  | (doc, score) :: rest => do
      let pd ← decodeAll pf pi doc.metadata
      let prop ← Property.ofPVals pd
      let ms ← reconstructMatches pf pi rest
      .ok ({ property := prop, similarity := score } :: ms)

/-- The try-guarded main body of ChromaPropertyStore.search: any raised
exception — a backend fault (`results = .error`) or a reconstruction
failure — is caught and an empty list returned. -/
def ChromaPropertyStore.searchBody (pf : String → Except String ℚ)
    (pi : String → Except String Int) (s : ChromaState)
    (results : Except String (List (ChromaDoc × ℚ))) :
    Except String (List PropertyMatch) × ChromaState :=
  match results with
  | .error _ => (.ok [], s)
  | .ok rs =>
      match reconstructMatches pf pi rs with
      | .error _ => (.ok [], s)
      | .ok ms => (.ok ms, s)

/-- ChromaPropertyStore.search (chroma_store.py lines 160-207).  An unbound
store is initialized inside a try/except that returns [] on failure
(`initFault` injects such a construction failure); the backend call and the
reconstruction run inside a second try/except that also returns [] on any
exception.  The caller observes a value in every case — no exception
escapes this method. -/
def ChromaPropertyStore.search (pf : String → Except String ℚ)
    (pi : String → Except String Int) (s : ChromaState) (initFault : Bool)
    (results : Except String (List (ChromaDoc × ℚ))) :
    Except String (List PropertyMatch) × ChromaState :=
  match s.vector_store with
  | Option.none =>
      if initFault then (.ok [], s)
      else ChromaPropertyStore.searchBody pf pi (ChromaPropertyStore.initialize_store s) results
  | some _ => ChromaPropertyStore.searchBody pf pi s results

lemma underDir_append (d rest : FsPath) : underDir d (d ++ rest) = true := by
  induction d with
  | nil => rfl
  | cons a t ih => simp [underDir, ih]

lemma not_mem_rmtree_under (fs : Fs) (d p : FsPath) (h : underDir d p = true) :
    p ∉ fs.rmtree d := by
  intro hm
  rcases List.mem_filter.mp hm with ⟨_, hcond⟩
  simp [h] at hcond

lemma append_singleton_ne (d : FsPath) (a b : String) (h : a ≠ b) :
    d ++ [a] ≠ d ++ [b] := by
  intro he
  exact h (by simpa using List.append_cancel_left he)

lemma append_singleton_ne_self (d : FsPath) (a : String) : d ++ [a] ≠ d := by
  intro h
  have := congrArg List.length h
  simp at this

/-- After any FAISS load_properties call — successful or not — the
needs_loading check answers true, because the persist directory was cleared
and only `index.faiss`/`index.pkl` were (possibly) written, never the
`store.pkl` that needs_loading looks for. -/
lemma faiss_needs_loading_after_load (fr : ℚ → String) (s : FaissState)
    (props : List Property) :
    FAISSPropertyStore.needs_loading (FAISSPropertyStore.load_properties fr s props).2 = true := by
  have hsub : underDir s.persist_directory (s.persist_directory ++ ["store.pkl"]) = true :=
    underDir_append _ _
  have hne1 : s.persist_directory ++ ["store.pkl"] ≠ s.persist_directory ++ ["index.faiss"] :=
    append_singleton_ne _ _ _ (by decide)
  have hne2 : s.persist_directory ++ ["store.pkl"] ≠ s.persist_directory ++ ["index.pkl"] :=
    append_singleton_ne _ _ _ (by decide)
  have hne3 : s.persist_directory ++ ["store.pkl"] ≠ s.persist_directory :=
    append_singleton_ne_self _ _
  have hnm : s.persist_directory ++ ["store.pkl"] ∉ s.fs.rmtree s.persist_directory :=
    not_mem_rmtree_under _ _ _ hsub
  rcases props with _ | ⟨p, rest⟩
  · simp [FAISSPropertyStore.load_properties, PropertyVectorStore.create_documents,
      FAISS.from_documents, FAISSPropertyStore.clear, FAISSPropertyStore.needs_loading,
      FAISSPropertyStore.store_file, FAISSPropertyStore.index_file, Fs.makedirs,
      pathExists, hne3, hnm]
  · simp [FAISSPropertyStore.load_properties, PropertyVectorStore.create_documents,
      FAISS.from_documents, FAISSPropertyStore.clear, FAISS.save_local,
      FAISSPropertyStore.needs_loading, FAISSPropertyStore.store_file,
      FAISSPropertyStore.index_file, Fs.makedirs, Fs.write,
      pathExists, hne1, hne2, hne3, hnm]

/-- After FAISS clear the needs_loading check answers true: the artifact
files were beneath the removed directory. -/
lemma faiss_clear_needs_loading (s : FaissState) :
    FAISSPropertyStore.needs_loading (FAISSPropertyStore.clear s) = true := by
  have hsub : underDir s.persist_directory (s.persist_directory ++ ["store.pkl"]) = true :=
    underDir_append _ _
  have hne3 : s.persist_directory ++ ["store.pkl"] ≠ s.persist_directory :=
    append_singleton_ne_self _ _
  have hnm : s.persist_directory ++ ["store.pkl"] ∉ s.fs.rmtree s.persist_directory :=
    not_mem_rmtree_under _ _ _ hsub
  simp [FAISSPropertyStore.clear, FAISSPropertyStore.needs_loading,
    FAISSPropertyStore.store_file, FAISSPropertyStore.index_file, Fs.makedirs,
    pathExists, hne3, hnm]

/-- A volatile-mode Chroma store over nothing. -/
def chromaMem0 : ChromaState :=
  ChromaPropertyStore.init Option.none StorageMode.memory 384 [] []

/-- A durable-mode Chroma store over an empty directory tree. -/
def chromaDisk0 : ChromaState :=
  ChromaPropertyStore.init (some ["db"]) StorageMode.disk 384 [] []

/-- A fresh FAISS store over an empty directory tree. -/
def faiss0 : FaissState :=
  FAISSPropertyStore.init ["data"] 384 [] Option.none

/-- C2: load([]) fails with an exception on both variants and does not
leave the store appearing loaded with zero documents.  Chroma raises
ValueError before any mutation, so the state is untouched.  FAISS clears
first and then the backend raises IndexError building an index from an
empty document list (langchain sizes the index from the first embedding),
so the store is left unloaded: no bound index and needs_loading true. -/
theorem C2_load_empty_raises (fr : ℚ → String) (s : ChromaState) (t : FaissState) :
    (ChromaPropertyStore.load_properties fr s []).1
      = .error "No properties provided to load" ∧
    (ChromaPropertyStore.load_properties fr s []).2 = s ∧
    (FAISSPropertyStore.load_properties fr t []).1
      = .error "IndexError: list index out of range" ∧
    (FAISSPropertyStore.load_properties fr t []).2.vector_store = Option.none ∧
    FAISSPropertyStore.needs_loading (FAISSPropertyStore.load_properties fr t []).2 = true :=
  ⟨rfl, rfl, rfl, rfl, faiss_needs_loading_after_load fr t []⟩

/-- C1 counterexample: two store instances on which a successful load of a
non-empty listing list still leaves needs_loading() true.  Volatile-mode
Chroma: needs_loading unconditionally answers true, it never tracks
in-process population.  Durable FAISS: needs_loading checks for store.pkl,
a file that save_local never writes (it writes index.pkl). -/
theorem C1_counterexample :
    (ChromaPropertyStore.load_properties fr0 chromaMem0 [sampleA]).1 = .ok () ∧
    ChromaPropertyStore.needs_loading
      (ChromaPropertyStore.load_properties fr0 chromaMem0 [sampleA]).2 = true ∧
    (FAISSPropertyStore.load_properties fr0 faiss0 [sampleA]).1 = .ok () ∧
    FAISSPropertyStore.needs_loading
      (FAISSPropertyStore.load_properties fr0 faiss0 [sampleA]).2 = true := by
  refine ⟨rfl, rfl, rfl, by decide⟩

lemma chroma_init_storage_mode (s : ChromaState) :
    (ChromaPropertyStore.initialize_store s).storage_mode = s.storage_mode := by
  unfold ChromaPropertyStore.initialize_store
  split <;> rfl

lemma chroma_load_storage_mode (fr : ℚ → String) (s : ChromaState) (props : List Property) :
    (ChromaPropertyStore.load_properties fr s props).2.storage_mode = s.storage_mode := by
  simp only [ChromaPropertyStore.load_properties]
  split
  · rfl
  · split
    · simp [chroma_init_storage_mode]
    · split
      · simp [chroma_init_storage_mode]
      · split <;> simp [chroma_init_storage_mode]

lemma chroma_needs_loading_memory (s : ChromaState)
    (h : s.storage_mode = StorageMode.memory) :
    ChromaPropertyStore.needs_loading s = true := by
  unfold ChromaPropertyStore.needs_loading
  rw [h]

/-- A successful durable-mode load leaves the database artifact written by
_initialize_store in place, so needs_loading answers false. -/
lemma chroma_disk_load_needs_loading (fr : ℚ → String) (spd : Option FsPath)
    (d : FsPath) (dim : Nat) (fs : Fs) (dc : List (FsPath × ChromaCollection))
    (vs : Option ChromaCollection) (pr : List (String × Property))
    (props : List Property)
    (hok : (ChromaPropertyStore.load_properties fr
        { storage_mode := StorageMode.disk, persist_directory := spd,
          chroma_data_directory := some d, embeddingDim := dim, fs := fs,
          diskCollections := dc, vector_store := vs, properties := pr } props).1 = .ok ()) :
    ChromaPropertyStore.needs_loading
      (ChromaPropertyStore.load_properties fr
        { storage_mode := StorageMode.disk, persist_directory := spd,
          chroma_data_directory := some d, embeddingDim := dim, fs := fs,
          diskCollections := dc, vector_store := vs, properties := pr } props).2 = false := by
  rcases props with _ | ⟨p, rest⟩
  · simp [ChromaPropertyStore.load_properties] at hok
  · unfold ChromaPropertyStore.load_properties at hok ⊢
    simp only [List.isEmpty_cons, Bool.false_eq_true, if_false,
      ChromaPropertyStore.initialize_store] at hok ⊢
    split at hok
    · simp at hok
    · simp [ChromaPropertyStore.needs_loading, pathExists, Fs.write, Fs.makedirs]

/-- C1 (amended): after a successful load of a non-empty listing list,
needs_loading() answers false only for the Chroma store in durable mode.
The Chroma store in volatile mode answers true (its needs_loading never
tracks in-process population), and the FAISS store answers true (its
needs_loading checks for store.pkl, a file save_local never writes — it
writes index.pkl). -/
theorem C1_amended (fr : ℚ → String) (spd : Option FsPath) (d : FsPath)
    (dim : Nat) (fs : Fs) (dc : List (FsPath × ChromaCollection))
    (vs : Option ChromaCollection) (pr : List (String × Property))
    (props : List Property) (m : ChromaState) (t : FaissState)
    (hok : (ChromaPropertyStore.load_properties fr
        { storage_mode := StorageMode.disk, persist_directory := spd,
          chroma_data_directory := some d, embeddingDim := dim, fs := fs,
          diskCollections := dc, vector_store := vs, properties := pr } props).1 = .ok ())
    (hm : m.storage_mode = StorageMode.memory) :
    ChromaPropertyStore.needs_loading
      (ChromaPropertyStore.load_properties fr
        { storage_mode := StorageMode.disk, persist_directory := spd,
          chroma_data_directory := some d, embeddingDim := dim, fs := fs,
          diskCollections := dc, vector_store := vs, properties := pr } props).2 = false ∧
    ChromaPropertyStore.needs_loading
      (ChromaPropertyStore.load_properties fr m props).2 = true ∧
    FAISSPropertyStore.needs_loading
      (FAISSPropertyStore.load_properties fr t props).2 = true :=
  ⟨chroma_disk_load_needs_loading fr spd d dim fs dc vs pr props hok,
   chroma_needs_loading_memory _ ((chroma_load_storage_mode fr m props).trans hm),
   faiss_needs_loading_after_load fr t props⟩

/-- C1 witness: the amended theorem applied to concrete fresh stores and
one concrete listing, the successful-load hypothesis discharged by
evaluation. -/
theorem C1_amended_witness :
    ChromaPropertyStore.needs_loading
      (ChromaPropertyStore.load_properties fr0
        { storage_mode := StorageMode.disk, persist_directory := some ["db"],
          chroma_data_directory := some ["db", ".chroma"], embeddingDim := 384, fs := [],
          diskCollections := [], vector_store := Option.none, properties := [] }
        [sampleA]).2 = false ∧
    ChromaPropertyStore.needs_loading
      (ChromaPropertyStore.load_properties fr0 chromaMem0 [sampleA]).2 = true ∧
    FAISSPropertyStore.needs_loading
      (FAISSPropertyStore.load_properties fr0 faiss0 [sampleA]).2 = true :=
  C1_amended fr0 (some ["db"]) ["db", ".chroma"] 384 [] [] Option.none [] [sampleA]
    chromaMem0 faiss0 rfl rfl

/-- C6 counterexample: a durable-mode Chroma store on which load then clear
leaves needs_loading() false — clear re-runs _initialize_store, whose
persistent-client construction recreates the chroma.sqlite3 artifact that
needs_loading checks for. -/
theorem C6_counterexample :
    (ChromaPropertyStore.load_properties fr0 chromaDisk0 [sampleA]).1 = .ok () ∧
    ChromaPropertyStore.needs_loading
      (ChromaPropertyStore.clear
        (ChromaPropertyStore.load_properties fr0 chromaDisk0 [sampleA]).2) = false := by
  refine ⟨rfl, by decide⟩

lemma chroma_clear_storage_mode (s : ChromaState) :
    (ChromaPropertyStore.clear s).storage_mode = s.storage_mode := by
  simp only [ChromaPropertyStore.clear]
  split
  · simp [chroma_init_storage_mode]
  · simp [chroma_init_storage_mode]

/-- A durable-mode clear recreates the database artifact via
_initialize_store, so needs_loading answers false. -/
lemma chroma_disk_clear_needs_loading (s : ChromaState) (d : FsPath)
    (hmode : s.storage_mode = StorageMode.disk)
    (hdir : s.chroma_data_directory = some d) :
    ChromaPropertyStore.needs_loading (ChromaPropertyStore.clear s) = false := by
  obtain ⟨sm, spd, scdd, dim, fs, dc, vs, pr⟩ := s
  simp only at hmode hdir
  subst hmode
  subst hdir
  simp [ChromaPropertyStore.clear, ChromaPropertyStore.clean_directory,
    ChromaPropertyStore.initialize_store, ChromaPropertyStore.needs_loading,
    pathExists, Fs.write, Fs.makedirs]

/-- C6 (amended): after load(L) then clear(), needs_loading() answers true
for the FAISS store (the artifact files lay beneath the removed directory)
and for the Chroma store in volatile mode (always true); but the Chroma
store in durable mode answers false, because clear() re-runs
_initialize_store and the persistent client recreates the chroma.sqlite3
artifact that needs_loading checks for. -/
theorem C6_amended (fr : ℚ → String) (s m : ChromaState) (t : FaissState)
    (d : FsPath) (props : List Property)
    (hmode : (ChromaPropertyStore.load_properties fr s props).2.storage_mode
        = StorageMode.disk)
    (hdir : (ChromaPropertyStore.load_properties fr s props).2.chroma_data_directory
        = some d)
    (hm : m.storage_mode = StorageMode.memory) :
    FAISSPropertyStore.needs_loading
      (FAISSPropertyStore.clear (FAISSPropertyStore.load_properties fr t props).2) = true ∧
    ChromaPropertyStore.needs_loading
      (ChromaPropertyStore.clear (ChromaPropertyStore.load_properties fr m props).2) = true ∧
    ChromaPropertyStore.needs_loading
      (ChromaPropertyStore.clear (ChromaPropertyStore.load_properties fr s props).2) = false :=
  ⟨faiss_clear_needs_loading _,
   chroma_needs_loading_memory _
     ((chroma_clear_storage_mode _).trans ((chroma_load_storage_mode fr m props).trans hm)),
   chroma_disk_clear_needs_loading _ d hmode hdir⟩

/-- C6 witness: the amended theorem applied to concrete stores and one
concrete listing, every hypothesis discharged by evaluation. -/
theorem C6_amended_witness :
    FAISSPropertyStore.needs_loading
      (FAISSPropertyStore.clear
        (FAISSPropertyStore.load_properties fr0 faiss0 [sampleA]).2) = true ∧
    ChromaPropertyStore.needs_loading
      (ChromaPropertyStore.clear
        (ChromaPropertyStore.load_properties fr0 chromaMem0 [sampleA]).2) = true ∧
    ChromaPropertyStore.needs_loading
      (ChromaPropertyStore.clear
        (ChromaPropertyStore.load_properties fr0 chromaDisk0 [sampleA]).2) = false :=
  C6_amended fr0 chromaDisk0 chromaMem0 faiss0 ["db", ".chroma"] [sampleA] rfl rfl rfl

/-- Listing with a distinct id for replacement tests. -/
def sampleE : Property := { sampleA with id := "2", town := "Torrevieja" }

/-- A third listing with its own id. -/
def sampleF : Property := { sampleA with id := "3", town := "Elche" }

/-- A loaded-looking FAISS state: an index is bound. -/
def faissLoadedSt : FaissState :=
  { faiss0 with vector_store := some { dim := 384, docs := [] } }

/-- C3 counterexample: with an index bound, a backend fault raised inside
`similarity_search_with_score` propagates out of FAISSPropertyStore.search —
there is no try/except in that method — so search does not return an empty
list there. -/
theorem C3_counterexample :
    FAISSPropertyStore.search faissLoadedSt (.error "backend fault")
      = .error "backend fault" ∧
    FAISSPropertyStore.search faissLoadedSt (.error "backend fault")
      ≠ .ok [] :=
  ⟨rfl, fun h => Except.noConfusion h⟩

lemma chroma_searchBody_ok (pf : String → Except String ℚ)
    (pi : String → Except String Int) (s : ChromaState)
    (res : Except String (List (ChromaDoc × ℚ))) :
    ∃ l, (ChromaPropertyStore.searchBody pf pi s res).1 = .ok l := by
  unfold ChromaPropertyStore.searchBody
  cases res with
  | error e => exact ⟨[], rfl⟩
  | ok rs =>
      cases hr : reconstructMatches pf pi rs with
      | error e =>
          refine ⟨[], ?_⟩
          show (match reconstructMatches pf pi rs with
                | Except.error _ => (Except.ok ([] : List PropertyMatch), s)
                | Except.ok ms => (Except.ok ms, s)).1 = Except.ok []
          rw [hr]
      | ok ms =>
          refine ⟨ms, ?_⟩
          show (match reconstructMatches pf pi rs with
                | Except.error _ => (Except.ok ([] : List PropertyMatch), s)
                | Except.ok ms => (Except.ok ms, s)).1 = Except.ok ms
          rw [hr]

/-- C3 (amended): ChromaPropertyStore.search never propagates an exception —
initialization failures, backend faults and reconstruction failures are all
caught and yield a value (an empty list in the fault cases).
FAISSPropertyStore.search returns [] when the store is not loaded, but a
backend fault raised during an actual search propagates to the caller. -/
theorem C3_amended (pf : String → Except String ℚ) (pi : String → Except String Int)
    (s : ChromaState) (iF : Bool) (res : Except String (List (ChromaDoc × ℚ)))
    (t u : FaissState) (fres : Except String (List (FaissDoc × ℚ)))
    (e : String) (idx : FaissIndex)
    (hu : u.vector_store = Option.none) (ht : t.vector_store = some idx) :
    (∃ l, (ChromaPropertyStore.search pf pi s iF res).1 = .ok l) ∧
    FAISSPropertyStore.search u fres = .ok [] ∧
    FAISSPropertyStore.search t (.error e) = .error e := by
  refine ⟨?_, ?_, ?_⟩
  · unfold ChromaPropertyStore.search
    cases hvs : s.vector_store with
    | none =>
        by_cases hif : iF = true
        · simp only [hif, if_true]
          exact ⟨[], rfl⟩
        · simp only [Bool.not_eq_true] at hif
          simp only [hif, Bool.false_eq_true, if_false]
          exact chroma_searchBody_ok pf pi _ res
    | some c => exact chroma_searchBody_ok pf pi s res
  · simp [FAISSPropertyStore.search, hu]
  · simp [FAISSPropertyStore.search, ht]

/-- C3 witness: the amended theorem applied to a volatile Chroma store, a
fresh FAISS store, and a loaded FAISS store with a concrete fault. -/
theorem C3_amended_witness :
    (∃ l, (ChromaPropertyStore.search pf0 pi0 chromaMem0 false (.ok [])).1 = .ok l) ∧
    FAISSPropertyStore.search faiss0 (.ok []) = .ok [] ∧
    FAISSPropertyStore.search faissLoadedSt (.error "backend fault")
      = .error "backend fault" :=
  C3_amended pf0 pi0 chromaMem0 false (.ok []) faissLoadedSt faiss0 (.ok [])
    "backend fault" { dim := 384, docs := [] } rfl rfl

/-- C4 at the failing input (the claim is right, the code does not do it):
after FAISS load([p1]) then load([p2]) the id→Property map still contains
p1 — FAISSPropertyStore.clear never resets `self.properties` — although
the rebuilt index holds exactly p2's document.  And after durable Chroma
load([p1, p2]) then load([p3]), the collection still holds p2's document
under positional id "1" (load_properties never clears the prior collection;
add_texts upserts over it), along with the stale map entries. -/
theorem C4_code_bug :
    ((FAISSPropertyStore.load_properties fr0
        (FAISSPropertyStore.load_properties fr0 faiss0 [sampleA]).2
        [sampleE]).2.properties.lookup "1") = some sampleA ∧
    ((FAISSPropertyStore.load_properties fr0
        (FAISSPropertyStore.load_properties fr0 faiss0 [sampleA]).2
        [sampleE]).2.properties.lookup "2") = some sampleE ∧
    ((FAISSPropertyStore.load_properties fr0
        (FAISSPropertyStore.load_properties fr0 faiss0 [sampleA]).2
        [sampleE]).2.vector_store.map
          (fun i => i.docs.map (fun dc => dc.metadata.id))) = some ["2"] ∧
    (ChromaPropertyStore.load_properties fr0
        (ChromaPropertyStore.load_properties fr0 chromaDisk0 [sampleA, sampleE]).2
        [sampleF]).1 = .ok () ∧
    ((ChromaPropertyStore.load_properties fr0
        (ChromaPropertyStore.load_properties fr0 chromaDisk0 [sampleA, sampleE]).2
        [sampleF]).2.vector_store.map (fun c => c.docs.lookup "1"))
      = some (some { page_content := Property.to_embedding_text fr0 sampleE,
                     metadata := encodeMeta fr0 sampleE }) ∧
    ((ChromaPropertyStore.load_properties fr0
        (ChromaPropertyStore.load_properties fr0 chromaDisk0 [sampleA, sampleE]).2
        [sampleF]).2.vector_store.map (fun c => c.docs.length)) = some 2 ∧
    ((ChromaPropertyStore.load_properties fr0
        (ChromaPropertyStore.load_properties fr0 chromaDisk0 [sampleA, sampleE]).2
        [sampleF]).2.properties.lookup "1") = some sampleA := by
  refine ⟨rfl, rfl, rfl, rfl, rfl, rfl, rfl⟩

/-- A FAISS store constructed over a directory persisting an index of a
different dimensionality (384) than the instance's embedding model (512). -/
def faissMismatch : FaissState :=
  FAISSPropertyStore.init ["data"] 512
    [["data"], ["data", "index.faiss"], ["data", "store.pkl"]]
    (some { dim := 384, docs := [] })

/-- C7 counterexample: the FAISS store binds a persisted 384-dimensional
index while its embedding model produces 512-dimensional vectors, yet
load_properties succeeds — load discards the persisted index wholesale
(clear before rebuild) and never compares dimensionalities. -/
theorem C7_counterexample :
    faissMismatch.vector_store = some { dim := 384, docs := [] } ∧
    faissMismatch.embeddingDim = 512 ∧
    (FAISSPropertyStore.load_properties fr0 faissMismatch [sampleA]).1 = .ok () ∧
    ((FAISSPropertyStore.load_properties fr0 faissMismatch [sampleA]).2.vector_store.map
      FaissIndex.dim) = some 512 :=
  ⟨rfl, rfl, rfl, rfl⟩

/-- C7 (amended): only the Chroma variant rejects a dimensionality
mismatch: loading over a durable directory whose persisted collection has a
different dimensionality than the current embedding model fails (chromadb
refuses the mismatched vectors and load_properties re-raises).  The FAISS
variant never fails this way: its load_properties discards the persisted
index before rebuilding, so any non-empty load succeeds and the new index
carries the current model's dimensionality. -/
theorem C7_amended (fr : ℚ → String) (spd : Option FsPath) (d : FsPath)
    (dim dold : Nat) (fs : Fs) (dc : List (FsPath × ChromaCollection))
    (vs : Option ChromaCollection) (pr : List (String × Property))
    (c : ChromaCollection) (props : List Property) (t : FaissState)
    (hne : props ≠ [])
    (hlk : dc.lookup d = some c)
    (hdim : c.dim = some dold)
    (hmm : dold ≠ dim) :
    (ChromaPropertyStore.load_properties fr
        { storage_mode := StorageMode.disk, persist_directory := spd,
          chroma_data_directory := some d, embeddingDim := dim, fs := fs,
          diskCollections := dc, vector_store := vs, properties := pr } props).1
      = .error "Failed to load properties into ChromaDB: InvalidDimensionException" ∧
    (FAISSPropertyStore.load_properties fr t props).1 = .ok () ∧
    ((FAISSPropertyStore.load_properties fr t props).2.vector_store.map FaissIndex.dim)
      = some t.embeddingDim := by
  rcases props with _ | ⟨p, rest⟩
  · exact absurd rfl hne
  · refine ⟨?_, rfl, rfl⟩
    unfold ChromaPropertyStore.load_properties
    simp only [List.isEmpty_cons, Bool.false_eq_true, if_false,
      ChromaPropertyStore.initialize_store]
    rw [hlk]
    simp only [Option.getD_some, Chroma.add_texts]
    rw [hdim]
    dsimp only
    rw [if_pos hmm]
    rfl

/-- C7 witness: the amended theorem at a concrete durable Chroma store
persisting a 384-dimensional collection under a 512-dimensional model, and
a concrete FAISS store. -/
theorem C7_amended_witness :
    (ChromaPropertyStore.load_properties fr0
        { storage_mode := StorageMode.disk, persist_directory := some ["db"],
          chroma_data_directory := some ["db", ".chroma"], embeddingDim := 512,
          fs := [["db", ".chroma"], ["db", ".chroma", "chroma.sqlite3"]],
          diskCollections := [(["db", ".chroma"], { dim := some 384, docs := [] })],
          vector_store := Option.none, properties := [] } [sampleA]).1
      = .error "Failed to load properties into ChromaDB: InvalidDimensionException" ∧
    (FAISSPropertyStore.load_properties fr0 faiss0 [sampleA]).1 = .ok () ∧
    ((FAISSPropertyStore.load_properties fr0 faiss0 [sampleA]).2.vector_store.map
      FaissIndex.dim) = some faiss0.embeddingDim :=
  C7_amended fr0 (some ["db"]) ["db", ".chroma"] 512 384
    [["db", ".chroma"], ["db", ".chroma", "chroma.sqlite3"]]
    [(["db", ".chroma"], { dim := some 384, docs := [] })]
    Option.none [] { dim := some 384, docs := [] } [sampleA] faiss0
    (by decide) rfl rfl (by decide)

/-- C8: every match FAISSPropertyStore.search produces from a successful
backend response carries similarity `1 / (1 + d)` for some backend L2
distance d among the results; this value is strictly positive and at most 1
whenever the distance is non-negative, and it is strictly decreasing in the
distance. -/
theorem C8_similarity :
    (∀ (s : FaissState) (rs : List (FaissDoc × ℚ)) (ms : List PropertyMatch),
        FAISSPropertyStore.search s (.ok rs) = .ok ms →
        ∀ m ∈ ms, ∃ x ∈ rs, m.similarity = faissSimilarity x.2) ∧
    (∀ d : ℚ, 0 ≤ d → 0 < faissSimilarity d ∧ faissSimilarity d ≤ 1) ∧
    (∀ d₁ d₂ : ℚ, 0 ≤ d₁ → d₁ < d₂ → faissSimilarity d₂ < faissSimilarity d₁) := by
  refine ⟨?_, ?_, ?_⟩
  · intro s rs ms h m hm
    unfold FAISSPropertyStore.search at h
    by_cases hvs : s.vector_store.isNone = true
    · rw [if_pos hvs] at h
      injection h with h'
      subst h'
      cases hm
    · rw [if_neg hvs] at h
      injection h with h'
      subst h'
      rcases List.mem_filterMap.mp hm with ⟨x, hx, hfx⟩
      refine ⟨x, hx, ?_⟩
      cases hl : s.properties.lookup x.1.metadata.id with
      | none => rw [hl] at hfx; cases hfx
      | some p =>
          rw [hl] at hfx
          injection hfx with hm'
          rw [← hm']
  · intro d hd
    have h1 : (0 : ℚ) < 1 + d := by linarith
    constructor
    · exact one_div_pos.mpr h1
    · rw [faissSimilarity, div_le_one h1]
      linarith
  · intro d₁ d₂ hd₁ hlt
    have h1 : (0 : ℚ) < 1 + d₁ := by linarith
    have h2 : 1 + d₁ < 1 + d₂ := by linarith
    exact one_div_lt_one_div_of_lt h1 h2

/-- A backend document whose metadata id is "1". -/
def faissDocW : FaissDoc :=
  { page_content := "",
    metadata := { id := "1", price := 0, type := "", town := "", beds := 0,
                  baths := 0, surface_area := 0 } }

/-- A loaded FAISS store holding sampleA under id "1". -/
def faissW : FaissState :=
  { faiss0 with vector_store := some { dim := 384, docs := [faissDocW] },
                properties := [("1", sampleA)] }

/-- C8 witness: the three parts of the similarity theorem applied at
concrete inputs — a concrete search call whose single match's similarity is
derived through the theorem, and the bounds and monotonicity at distances
1 and 2. -/
theorem C8_similarity_witness :
    FAISSPropertyStore.search faissW (.ok [(faissDocW, 3)])
      = .ok [{ property := sampleA, similarity := faissSimilarity 3 }] ∧
    ({ property := sampleA, similarity := faissSimilarity 3 } : PropertyMatch).similarity
      = faissSimilarity 3 ∧
    (0 < faissSimilarity 1 ∧ faissSimilarity 1 ≤ 1) ∧
    faissSimilarity 2 < faissSimilarity 1 := by
  have h0 : FAISSPropertyStore.search faissW (.ok [(faissDocW, 3)])
      = .ok [{ property := sampleA, similarity := faissSimilarity 3 }] := rfl
  refine ⟨h0, ?_, C8_similarity.2.1 1 (by norm_num), C8_similarity.2.2 1 2 (by norm_num) (by norm_num)⟩
  have h := C8_similarity.1 faissW [(faissDocW, 3)]
    [{ property := sampleA, similarity := faissSimilarity 3 }] h0
    ({ property := sampleA, similarity := faissSimilarity 3 } : PropertyMatch)
    (List.mem_singleton.mpr rfl)
  obtain ⟨x, hx, he⟩ := h
  have hx' := List.mem_singleton.mp hx
  subst hx'
  exact he

lemma filterMap_lookup_nil (rs : List (FaissDoc × ℚ)) :
    (rs.filterMap fun dr =>
      match ([] : List (String × Property)).lookup dr.1.metadata.id with
      | some p => some ({ property := p, similarity := faissSimilarity dr.2 } : PropertyMatch)
      | Option.none => Option.none) = [] := by
  induction rs with
  | nil => rfl
  | cons a t ih => simp [List.filterMap_cons, List.lookup, ih]

/-- C10: a FAISS store freshly constructed over a persist directory already
holding both artifact files reports needs_loading() = false (and binds
whatever index the directory persists), yet its in-memory id→Property map
starts empty — the base constructor makes it empty and nothing refills it —
so search drops every backend match and returns [] for every query and
top_k (every successful backend response). -/
theorem C10_persisted_faiss_search_empty (pd : FsPath) (dim : Nat) (fs : Fs)
    (disk : Option FaissIndex) (rs : List (FaissDoc × ℚ))
    (h1 : (pd ++ ["index.faiss"]) ∈ fs) (h2 : (pd ++ ["store.pkl"]) ∈ fs) :
    FAISSPropertyStore.needs_loading (FAISSPropertyStore.init pd dim fs disk) = false ∧
    (FAISSPropertyStore.init pd dim fs disk).properties = [] ∧
    FAISSPropertyStore.search (FAISSPropertyStore.init pd dim fs disk) (.ok rs) = .ok [] := by
  have hvs : (FAISSPropertyStore.init pd dim fs disk).vector_store = disk := by
    simp only [FAISSPropertyStore.init, FAISSPropertyStore.index_file,
      FAISSPropertyStore.store_file]
    rw [if_pos (by simp [pathExists, h1, h2])]
  have hp : (FAISSPropertyStore.init pd dim fs disk).properties = [] := by
    simp only [FAISSPropertyStore.init]
    split <;> rfl
  refine ⟨?_, hp, ?_⟩
  · simp [FAISSPropertyStore.needs_loading, FAISSPropertyStore.init,
      FAISSPropertyStore.index_file, FAISSPropertyStore.store_file, pathExists, h1, h2]
  · unfold FAISSPropertyStore.search
    rw [hvs, hp]
    cases disk with
    | none => rfl
    | some idx => exact congrArg Except.ok (filterMap_lookup_nil rs)

/-- C10 witness: the theorem at a concrete directory holding both artifact
files, a persisted index, and a concrete backend response. -/
theorem C10_witness :
    FAISSPropertyStore.needs_loading
      (FAISSPropertyStore.init ["data"] 384
        [["data", "index.faiss"], ["data", "store.pkl"]]
        (some { dim := 384, docs := [faissDocW] })) = false ∧
    (FAISSPropertyStore.init ["data"] 384
        [["data", "index.faiss"], ["data", "store.pkl"]]
        (some { dim := 384, docs := [faissDocW] })).properties = [] ∧
    FAISSPropertyStore.search
      (FAISSPropertyStore.init ["data"] 384
        [["data", "index.faiss"], ["data", "store.pkl"]]
        (some { dim := 384, docs := [faissDocW] }))
      (.ok [(faissDocW, 3)]) = .ok [] :=
  C10_persisted_faiss_search_empty ["data"] 384
    [["data", "index.faiss"], ["data", "store.pkl"]]
    (some { dim := 384, docs := [faissDocW] }) [(faissDocW, 3)]
    (by decide) (by decide)
